import Mathlib

/-!
Shallow embedding of the concept-craft-cms front-end core:
the authentication/session reducer (src/contexts/AuthContext.tsx),
the problem-statement CRUD mutation handlers and their cache
invalidation (src/pages/ProblemManagement.tsx,
src/components/problems/ProblemList.tsx), the client-side
validation schema (src/components/problems/ProblemForm.tsx),
and the CSV bulk-upload component (src/components/problems/BulkUpload.tsx).
-/

namespace ConceptCraft

/-- Identity record carried in the session (authService User). -/
structure User where
  id : String
  name : String
  email : String
  role : String
  deriving DecidableEq

/-- AuthState from src/contexts/AuthContext.tsx lines 4-10. -/
structure AuthState where
  user : Option User
  token : Option String
  isAuthenticated : Bool
  isLoading : Bool
  error : Option String
  deriving DecidableEq

/-- AuthAction from src/contexts/AuthContext.tsx lines 19-25. -/
inductive AuthAction where
  | authStart
  | authSuccess (user : User) (token : String)
  | authFailure (message : String)
  | logout
  | clearError
  | setLoading (b : Bool)
  deriving DecidableEq

/-- initialState from src/contexts/AuthContext.tsx lines 27-33. -/
def initialState : AuthState :=
  { user := none, token := none, isAuthenticated := false,
    isLoading := true, error := none }

/-- authReducer from src/contexts/AuthContext.tsx lines 35-83. -/
def authReducer (state : AuthState) (action : AuthAction) : AuthState :=
  match action with
  | .authStart =>
      { state with isLoading := true, error := none }
  | .authSuccess u t =>
      { state with
          user := some u
          token := some t
          isAuthenticated := true
          isLoading := false
          error := none }
  | .authFailure m =>
      { state with
          user := none
          token := none
          isAuthenticated := false
          isLoading := false
          error := some m }
  | .logout =>
      { state with
          user := none
          token := none
          isAuthenticated := false
          isLoading := false
          error := none }
  | .clearError =>
      { state with error := none }
  | .setLoading b =>
      { state with isLoading := b }

/-- Apply a sequence of dispatched actions through the reducer. -/
def runActions (s : AuthState) (l : List AuthAction) : AuthState :=
  l.foldl authReducer s

/-- The spec invariant: isAuthenticated iff user and token both present. -/
def authInvariant (s : AuthState) : Prop :=
  s.isAuthenticated = (s.user.isSome && s.token.isSome)

/-- Durable client-side storage: the token entry and the serialized
user entry consulted by initAuth / written by storeAuthData. -/
structure Storage where
  token : Option String
  user : Option User
  deriving DecidableEq

/-- authService.clearAuthData: both persisted entries erased. -/
def emptyStorage : Storage := { token := none, user := none }

/-- One entry of a server-side validation error list, as read by
onSubmitForm (err.msg or err.message). -/
structure ValidationErrEntry where
  msg : Option String
  message : Option String
  deriving DecidableEq

/-- The error.response.data.errors payload: a JS array of entries
or a plain object whose values are joined. -/
inductive ErrorsPayload where
  | arr (entries : List ValidationErrEntry)
  | obj (values : List String)
  deriving DecidableEq

/-- Structured shape of an axios-style error as the handlers read it:
dataMessage is error.response.data.message, dataError is
error.response.data.error, dataErrors is error.response.data.errors,
message is the error object's own message. -/
structure ApiError where
  dataMessage : Option String
  dataError : Option String
  dataErrors : Option ErrorsPayload
  message : Option String
  deriving DecidableEq

/-- JavaScript a-or-b on a possibly-absent string: the left operand is
taken when present and truthy (non-empty), else the fallback. -/
def jsOrStr (o : Option String) (fallback : String) : String :=
  match o with
  | some s => if s = "" then fallback else s
  | none => fallback

/-- initAuth from src/contexts/AuthContext.tsx lines 104-124: read the
persisted token and user; when both present verify with the backend and
dispatch AUTH_SUCCESS with the fresh user and the persisted token, or on
verify failure clear storage and dispatch AUTH_FAILURE "Session expired";
when either is absent dispatch SET_LOADING false (an empty-string token
is falsy in the source condition and counts as absent). Returns the state
after the single dispatch from the initial reducer state, and the
storage. -/
def initAuth (st : Storage) (verify : Except ApiError User) :
    AuthState × Storage :=
  match st.token, st.user with
  | some tok, some _ =>
      if tok = "" then (authReducer initialState (.setLoading false), st)
      else
        match verify with
        | .ok freshUser =>
            (authReducer initialState (.authSuccess freshUser tok), st)
        | .error _ =>
            (authReducer initialState (.authFailure "Session expired"),
             emptyStorage)
  | some _, none => (authReducer initialState (.setLoading false), st)
  | none, _ => (authReducer initialState (.setLoading false), st)

/-- login from src/contexts/AuthContext.tsx lines 129-149: dispatch
AUTH_START, await the login call; on success store user+token and
dispatch AUTH_SUCCESS; on failure dispatch AUTH_FAILURE with the
server message or the fallback, and re-throw the error (third
component some e). -/
def login (s : AuthState) (st : Storage)
    (resp : Except ApiError (User × String)) :
    AuthState × Storage × Option ApiError :=
  let s1 := authReducer s .authStart
  match resp with
  | .ok (u, t) =>
      (authReducer s1 (.authSuccess u t),
       { token := some t, user := some u }, none)
  | .error e =>
      (authReducer s1 (.authFailure (jsOrStr e.dataMessage "Login failed")),
       st, some e)

/-- register from src/contexts/AuthContext.tsx lines 151-171: same shape
as login with the registration fallback message. -/
def registerUser (s : AuthState) (st : Storage)
    (resp : Except ApiError (User × String)) :
    AuthState × Storage × Option ApiError :=
  let s1 := authReducer s .authStart
  match resp with
  | .ok (u, t) =>
      (authReducer s1 (.authSuccess u t),
       { token := some t, user := some u }, none)
  | .error e =>
      (authReducer s1
         (.authFailure (jsOrStr e.dataMessage "Registration failed")),
       st, some e)

/-- ProblemFilters from problemService as used by ProblemList:
search text, enumerated filter fields, page and page size. -/
structure ProblemFilters where
  page : Nat
  limit : Nat
  search : Option String
  domain : Option String
  category : Option String
  difficulty : Option String
  status : Option String
  featured : Option Bool
  deriving DecidableEq

/-- handleSearch from src/components/problems/ProblemList.tsx lines
160-167: store the query (empty string becomes undefined) and reset
the page to 1. -/
def handleSearch (query : String) (f : ProblemFilters) : ProblemFilters :=
  { f with
      search := if query = "" then none else some query
      page := 1 }

/-- Filter fields passed as the key of handleFilterChange. -/
inductive FilterKey where
  | domain
  | category
  | difficulty
  | status
  deriving DecidableEq

/-- The value normalization in handleFilterChange: the sentinel "all"
and the empty string both become undefined. -/
def normalizeFilterValue : Option String → Option String
  | some s => if s = "all" then none else if s = "" then none else some s
  | none => none

/-- handleFilterChange from src/components/problems/ProblemList.tsx
lines 170-176: set the named field to the normalized value and reset
the page to 1. -/
def handleFilterChange (k : FilterKey) (v : Option String)
    (f : ProblemFilters) : ProblemFilters :=
  match k with
  | .domain => { f with domain := normalizeFilterValue v, page := 1 }
  | .category => { f with category := normalizeFilterValue v, page := 1 }
  | .difficulty => { f with difficulty := normalizeFilterValue v, page := 1 }
  | .status => { f with status := normalizeFilterValue v, page := 1 }

/-- handlePageChange from src/components/problems/ProblemList.tsx
lines 179-181: set only the page. -/
def handlePageChange (page : Nat) (f : ProblemFilters) : ProblemFilters :=
  { f with page := page }

/-- The query keys used by the app: the listProblems family
(keyed by filters) and the getStats key. -/
inductive QueryKey where
  | problems (filters : ProblemFilters)
  | problemStats
  deriving DecidableEq

/-- The base resource name of a query key, i.e. its first element
as matched by invalidateQueries prefix matching. -/
def keyBase : QueryKey → String
  | .problems _ => "problems"
  | .problemStats => "problem-stats"

/-- The client-side query cache: each entry a key with a freshness
flag (false = invalidated, next read refetches). -/
abbrev Cache := List (QueryKey × Bool)

/-- queryClient.invalidateQueries with a one-element key prefix:
every cached entry whose base name matches is marked stale. -/
def invalidateQueries (base : String) (c : Cache) : Cache :=
  c.map fun e => if keyBase e.1 = base then (e.1, false) else e

/-- A toast notification as emitted by the handlers. -/
structure Toast where
  title : String
  description : String
  destructive : Bool
  deriving DecidableEq

/-- The item text used by onSubmitForm for one validation entry:
err.msg or err.message (a missing pair renders as "undefined"). -/
def errEntryText (e : ValidationErrEntry) : String :=
  jsOrStr e.msg (e.message.getD "undefined")

/-- Array.prototype.join with the separator used by onSubmitForm. -/
def joinComma (l : List String) : String :=
  String.intercalate ", " l

/-- Error-message extraction of onSubmitForm in
src/components/problems/ProblemForm.tsx lines 182-207:
response.data.message, else response.data.errors joined, else the
error object's own message, else a generic fallback naming the mode. -/
def formErrorMessage (isCreate : Bool) (e : ApiError) : String :=
  jsOrStr e.dataMessage
    (match e.dataErrors with
     | some (.arr entries) => joinComma (entries.map errEntryText)
     | some (.obj values) => joinComma values
     | none =>
         jsOrStr e.message
           (if isCreate then "Failed to create problem statement."
            else "Failed to update problem statement."))

/-- Error-message extraction of updateStatusMutation.onError in
src/components/problems/ProblemList.tsx lines 79-98:
response.data.message, else response.data.error (a single string),
else the error object's own message, else the generic fallback. -/
def statusErrorMessage (e : ApiError) : String :=
  jsOrStr e.dataMessage
    (jsOrStr e.dataError
      (jsOrStr e.message "Failed to update problem status."))

/-- Error-message extraction of toggleFeaturedMutation.onError in
src/components/problems/ProblemList.tsx lines 112-131: same chain
with its own fallback. -/
def featuredErrorMessage (e : ApiError) : String :=
  jsOrStr e.dataMessage
    (jsOrStr e.dataError
      (jsOrStr e.message "Failed to update featured status."))

/-- deleteMutation.onError in src/components/problems/ProblemList.tsx
lines 145-152 ignores the error value entirely. -/
def deleteErrorMessage (_e : ApiError) : String :=
  "Failed to delete problem."

/-- uploadMutation.onError in src/components/problems/BulkUpload.tsx
lines 86-94: the error object's own message, else the fallback. -/
def bulkErrorMessage (e : ApiError) : String :=
  jsOrStr e.message "Failed to upload file"

/-- The write operations on problem statements. -/
inductive WriteOp where
  | create
  | update
  | delete
  | updateStatus
  | toggleFeatured
  | bulkUpload
  deriving DecidableEq

/-- The user-visible message each mutation's error handler derives. -/
def mutationErrorMessage (op : WriteOp) (e : ApiError) : String :=
  match op with
  | .create => formErrorMessage true e
  | .update => formErrorMessage false e
  | .delete => deleteErrorMessage e
  | .updateStatus => statusErrorMessage e
  | .toggleFeatured => featuredErrorMessage e
  | .bulkUpload => bulkErrorMessage e

/-- Cache effect of each mutation once it settles: every onSuccess
handler (ProblemManagement.tsx lines 45-47 and 67-69, ProblemList.tsx
lines 71-73, 104-106 and 137-139, BulkUpload.tsx lines 70-71)
invalidates the problems family then the problem-stats family;
every onError handler leaves the cache untouched. -/
def settleCache (op : WriteOp) (res : Except ApiError Unit) (c : Cache) :
    Cache :=
  match res, op with
  | .ok _, .create =>
      invalidateQueries "problem-stats" (invalidateQueries "problems" c)
  | .ok _, .update =>
      invalidateQueries "problem-stats" (invalidateQueries "problems" c)
  | .ok _, .delete =>
      invalidateQueries "problem-stats" (invalidateQueries "problems" c)
  | .ok _, .updateStatus =>
      invalidateQueries "problem-stats" (invalidateQueries "problems" c)
  | .ok _, .toggleFeatured =>
      invalidateQueries "problem-stats" (invalidateQueries "problems" c)
  | .ok _, .bulkUpload =>
      invalidateQueries "problem-stats" (invalidateQueries "problems" c)
  | .error _, _ => c

/-- DOMAINS from the problemService constants (embedded at the end of
src/src/components/ui/status-badge.tsx, lines 334-343): the fixed
enumerated domain set. -/
def DOMAINS : List String :=
  ["AI & Machine Learning",
   "IoT & Embedded Systems",
   "Cloud Computing",
   "Web & Mobile Applications",
   "Cybersecurity & Blockchain",
   "Data Science & Analytics",
   "Networking & Communication",
   "Mechanical / ECE Projects"]

/-- CATEGORIES from the problemService constants (embedded at the end
of src/src/components/ui/status-badge.tsx, line 345). -/
def CATEGORIES : List String := ["Major", "Minor", "Capstone"]

/-- DIFFICULTIES from the problemService constants (embedded at the
end of src/src/components/ui/status-badge.tsx, line 347). -/
def DIFFICULTIES : List String := ["Beginner", "Intermediate", "Advanced"]

/-- The typed form data validated by problemSchema. -/
structure ProblemFormData where
  title : String
  abstract : String
  domain : String
  category : String
  difficulty : String
  duration : String
  technologies : List String
  deliverables : List String
  prerequisites : List String
  learningOutcomes : List String
  tags : List String
  deriving DecidableEq

/-- problemSchema from src/components/problems/ProblemForm.tsx lines
28-40: title 5-200 chars, abstract 50-5000 chars, domain in DOMAINS,
category and difficulty in their enumerations, duration 1-50 chars,
technologies and deliverables each non-empty; the remaining list
fields are optional. -/
def validateProblem (d : ProblemFormData) : Bool :=
  decide (5 ≤ d.title.length) && decide (d.title.length ≤ 200) &&
  decide (50 ≤ d.abstract.length) && decide (d.abstract.length ≤ 5000) &&
  decide (d.domain ∈ DOMAINS) &&
  decide (d.category ∈ CATEGORIES) &&
  decide (d.difficulty ∈ DIFFICULTIES) &&
  decide (1 ≤ d.duration.length) && decide (d.duration.length ≤ 50) &&
  decide (1 ≤ d.technologies.length) &&
  decide (1 ≤ d.deliverables.length)

/-- The client-side submit gate: the resolver only invokes the network
submit handler when the schema accepts; a rejected form sends nothing. -/
def clientSubmit (d : ProblemFormData) : Option ProblemFormData :=
  if validateProblem d then some d else none

/-- A selected file as the bulk-upload component sees it. -/
structure UploadFile where
  name : String
  type : String
  deriving DecidableEq

/-- One row-level validation error of a bulk-upload response. -/
structure BulkRowError where
  row : Nat
  field : String
  message : String
  deriving DecidableEq

/-- The data block of a bulk-upload response. -/
structure UploadData where
  imported : Nat
  failed : Nat
  errors : List BulkRowError
  deriving DecidableEq

/-- UploadResult from src/components/problems/BulkUpload.tsx
lines 24-36. -/
structure UploadResult where
  success : Bool
  message : String
  data : Option UploadData
  deriving DecidableEq

/-- The component-local state of BulkUpload. -/
structure BulkState where
  selectedFile : Option UploadFile
  uploadProgress : Nat
  uploadResult : Option UploadResult
  isProcessing : Bool
  deriving DecidableEq

/-- JavaScript String.prototype.endsWith over the character sequence. -/
def jsEndsWith (s pat : String) : Bool :=
  pat.data.isSuffixOf s.data

/-- The rejection toast of handleFileSelect. -/
def invalidFileToast : Toast :=
  { title := "Invalid File Type"
    description := "Please select a CSV file"
    destructive := true }

/-- handleFileSelect from src/components/problems/BulkUpload.tsx lines
115-127: a file whose declared type is not text/csv and whose name does
not end in .csv is rejected with a toast and the state is untouched;
otherwise it becomes the selected file and any previous result is
cleared. -/
def handleFileSelect (f : UploadFile) (s : BulkState) :
    BulkState × Option Toast :=
  if f.type != "text/csv" && !(jsEndsWith f.name ".csv") then
    (s, some invalidFileToast)
  else
    ({ s with selectedFile := some f, uploadResult := none }, none)

/-- handleUpload from src/components/problems/BulkUpload.tsx lines
156-160: the file handed to the upload mutation, if one is selected. -/
def handleUpload (s : BulkState) : Option UploadFile :=
  s.selectedFile

/-- Settlement of the bulk-upload mutation, from BulkUpload.tsx lines
66-95: on a resolved response, progress 100, processing done, the whole
result stored, both cache families invalidated, and a toast keyed on the
response success flag; on a rejected call, processing reset and an error
toast, result and cache untouched. -/
def bulkSettle (res : Except ApiError UploadResult) (s : BulkState)
    (c : Cache) : BulkState × Cache × Toast :=
  match res with
  | .ok result =>
      let importedCount := (result.data.map (fun d => d.imported)).getD 0
      ({ s with
           uploadProgress := 100
           isProcessing := false
           uploadResult := some result },
       invalidateQueries "problem-stats" (invalidateQueries "problems" c),
       if result.success then
         { title := "Upload Successful"
           description :=
             s!"Successfully imported {importedCount} problem statements"
           destructive := false }
       else
         { title := "Upload Completed with Errors"
           description := result.message
           destructive := true })
  | .error e =>
      ({ s with isProcessing := false, uploadProgress := 0 }, c,
       { title := "Upload Failed"
         description := bulkErrorMessage e
         destructive := true })

/-- The imported/failed counts shown by the results panel
(BulkUpload.tsx lines 309-324): present when the stored result
carries a data block. -/
def renderedCounts (s : BulkState) : Option (Nat × Nat) :=
  match s.uploadResult with
  | some r =>
      match r.data with
      | some d => some (d.imported, d.failed)
      | none => none
  | none => none

/-- The row-level errors listed by the results panel (BulkUpload.tsx
lines 326-355): the full error list whenever it is non-empty. -/
def renderedRowErrors (s : BulkState) : List BulkRowError :=
  match s.uploadResult with
  | some r =>
      match r.data with
      | some d => if 0 < d.errors.length then d.errors else []
      | none => []
  | none => []

/-- Sample identity used by concrete witnesses. -/
def sampleUser : User :=
  { id := "1", name := "A", email := "a@b.com", role := "admin" }

/-- A second sample identity, the freshly verified user. -/
def sampleUser2 : User :=
  { id := "1", name := "A2", email := "a@b.com", role := "admin" }

/-- Sample filter state used by concrete witnesses. -/
def sampleFilters : ProblemFilters :=
  { page := 4, limit := 10, search := some "ml",
    domain := none, category := some "Major",
    difficulty := some "Beginner", status := some "Active",
    featured := none }

/-- Sample cache used by concrete witnesses. -/
def sampleCache : Cache :=
  [(QueryKey.problems sampleFilters, true), (QueryKey.problemStats, true)]

/-- A login failure carrying a server-provided message. -/
def sampleLoginError : ApiError :=
  { dataMessage := some "Invalid credentials", dataError := none,
    dataErrors := none, message := none }

/-- A delete failure carrying a server-provided structured message. -/
def sampleServerError : ApiError :=
  { dataMessage := some "Problem is referenced", dataError := none,
    dataErrors := none, message := none }

/-- An error carrying no information at all. -/
def sampleEmptyError : ApiError :=
  { dataMessage := none, dataError := none,
    dataErrors := none, message := none }

/-- A partial-success bulk response: 22 rows imported, 3 failed. -/
def sampleBulkResult : UploadResult :=
  { success := true
    message := "Import completed"
    data := some
      { imported := 22
        failed := 3
        errors :=
          [{ row := 2, field := "title", message := "Title too short" },
           { row := 5, field := "domain", message := "Invalid domain" },
           { row := 9, field := "abstract", message := "Abstract too short" }] } }

/-- The idle bulk-upload component state. -/
def sampleBulkState : BulkState :=
  { selectedFile := none, uploadProgress := 0,
    uploadResult := none, isProcessing := false }

/-- A file that is neither CSV-typed nor CSV-named. -/
def sampleNonCsvFile : UploadFile :=
  { name := "data.xlsx", type := "application/vnd.ms-excel" }

/-- A form submission whose title has length 4. -/
def sampleShortTitleData : ProblemFormData :=
  { title := "abcd", abstract := "x", domain := "Cloud Computing",
    category := "Major", difficulty := "Beginner", duration := "3 months",
    technologies := ["React"], deliverables := ["Report"],
    prerequisites := [], learningOutcomes := [], tags := [] }

/-- An authenticated session state used by concrete witnesses. -/
def sampleAuthState : AuthState :=
  { user := some sampleUser, token := some "tok1",
    isAuthenticated := true, isLoading := false, error := none }

theorem authInvariant_initial : authInvariant initialState := by
  simp [authInvariant, initialState]

theorem authInvariant_step (s : AuthState) (a : AuthAction)
    (h : authInvariant s) : authInvariant (authReducer s a) := by
  cases a <;> simp [authInvariant, authReducer] <;> exact h

theorem authInvariant_runActions (s : AuthState) (l : List AuthAction)
    (h : authInvariant s) : authInvariant (runActions s l) := by
  induction l generalizing s with
  | nil => exact h
  | cons a rest ih => exact ih (authReducer s a) (authInvariant_step s a h)

/-- C1: every sequence of session transitions applied by the session
reducer from the initial state yields a state in which isAuthenticated
equals (user present and token present). -/
theorem auth_invariant_all_transitions (l : List AuthAction) :
    (runActions initialState l).isAuthenticated =
      ((runActions initialState l).user.isSome &&
       (runActions initialState l).token.isSome) :=
  authInvariant_runActions initialState l authInvariant_initial

/-- C2: restore-on-start by cases. With a persisted (truthy) token and a
persisted user, a successful verify call yields the authenticated state
with the fresh user and the persisted token and storage intact; a failed
verify call erases storage and yields the anonymous state with error
"Session expired"; with no persisted credentials the state becomes
anonymous (isLoading false) with no error and storage is untouched. -/
theorem initAuth_cases (st : Storage) (verify : Except ApiError User) :
    (∀ tok u0 fresh, st.token = some tok → tok ≠ "" → st.user = some u0 →
        verify = .ok fresh →
        initAuth st verify =
          ({ user := some fresh, token := some tok, isAuthenticated := true,
             isLoading := false, error := none }, st)) ∧
    (∀ tok u0 e, st.token = some tok → tok ≠ "" → st.user = some u0 →
        verify = .error e →
        initAuth st verify =
          ({ user := none, token := none, isAuthenticated := false,
             isLoading := false,
             error := some "Session expired" }, emptyStorage)) ∧
    (st.token = none ∨ st.user = none →
        initAuth st verify =
          ({ user := none, token := none, isAuthenticated := false,
             isLoading := false, error := none }, st)) := by
  refine ⟨?_, ?_, ?_⟩
  · intro tok u0 fresh htok hne huser hv
    subst hv
    simp [initAuth, htok, huser, hne, authReducer, initialState]
  · intro tok u0 e htok hne huser hv
    subst hv
    simp [initAuth, htok, huser, hne, authReducer, initialState]
  · intro h
    rcases h with h | h
    · obtain ⟨t, u⟩ := st
      simp only at h
      subst h
      simp [initAuth, authReducer, initialState]
    · obtain ⟨t, u⟩ := st
      simp only at h
      subst h
      cases t <;> simp [initAuth, authReducer, initialState]

theorem initAuth_cases_witness :
    initAuth { token := some "tok1", user := some sampleUser }
        (.ok sampleUser2) =
      ({ user := some sampleUser2, token := some "tok1",
         isAuthenticated := true, isLoading := false, error := none },
       { token := some "tok1", user := some sampleUser }) ∧
    initAuth { token := some "tok1", user := some sampleUser }
        (.error sampleEmptyError) =
      ({ user := none, token := none, isAuthenticated := false,
         isLoading := false, error := some "Session expired" },
       emptyStorage) := by
  constructor
  · exact (initAuth_cases _ _).1 "tok1" sampleUser sampleUser2 rfl
      (by decide) rfl rfl
  · exact (initAuth_cases _ _).2.1 "tok1" sampleUser sampleEmptyError rfl
      (by decide) rfl rfl

/-- C8: a failing login yields the anonymous state (user and token
absent, isAuthenticated false, isLoading false) whose error is the
server-provided message when present and "Login failed" otherwise,
and the failure is re-thrown to the caller. -/
theorem login_failure_spec (s : AuthState) (st : Storage) (e : ApiError) :
    login s st (.error e) =
      ({ user := none, token := none, isAuthenticated := false,
         isLoading := false,
         error := some (jsOrStr e.dataMessage "Login failed") },
       st, some e) ∧
    (∀ m, e.dataMessage = some m → m ≠ "" →
        jsOrStr e.dataMessage "Login failed" = m) ∧
    (e.dataMessage = none →
        jsOrStr e.dataMessage "Login failed" = "Login failed") := by
  refine ⟨?_, ?_, ?_⟩
  · simp [login, authReducer]
  · intro m hm hne
    simp [jsOrStr, hm, hne]
  · intro hm
    simp [jsOrStr, hm]

theorem login_failure_spec_witness :
    login initialState emptyStorage (.error sampleLoginError) =
      ({ user := none, token := none, isAuthenticated := false,
         isLoading := false, error := some "Invalid credentials" },
       emptyStorage, some sampleLoginError) := by
  have h := login_failure_spec initialState emptyStorage sampleLoginError
  have hm : jsOrStr sampleLoginError.dataMessage "Login failed" =
      "Invalid credentials" :=
    h.2.1 "Invalid credentials" rfl (by decide)
  rw [h.1, hm]

/-- C10: the AUTH_START transition sets isLoading and clears the error
while leaving user, token and isAuthenticated unchanged; in particular
started from an authenticated state it keeps the previous user and
token with isAuthenticated still true. -/
theorem authStart_frame (s : AuthState) :
    (authReducer s .authStart).user = s.user ∧
    (authReducer s .authStart).token = s.token ∧
    (authReducer s .authStart).isAuthenticated = s.isAuthenticated ∧
    (authReducer s .authStart).isLoading = true ∧
    (authReducer s .authStart).error = none ∧
    (s.isAuthenticated = true →
      (authReducer s .authStart).isAuthenticated = true ∧
      (authReducer s .authStart).user = s.user ∧
      (authReducer s .authStart).token = s.token) := by
  refine ⟨rfl, rfl, rfl, rfl, rfl, ?_⟩
  intro h
  exact ⟨h, rfl, rfl⟩

theorem authStart_frame_witness :
    (authReducer sampleAuthState .authStart).isAuthenticated = true ∧
    (authReducer sampleAuthState .authStart).user = some sampleUser ∧
    (authReducer sampleAuthState .authStart).token = some "tok1" :=
  (authStart_frame sampleAuthState).2.2.2.2.2 rfl

/-- C9: changing the search text or any single filter field resets the
page to 1 and leaves every other filter field unchanged; changing only
the page leaves every other field unchanged. -/
theorem filter_change_frame (q : String) (k : FilterKey) (v : Option String)
    (p : Nat) (f : ProblemFilters) :
    ((handleSearch q f).page = 1 ∧
     (handleSearch q f).domain = f.domain ∧
     (handleSearch q f).category = f.category ∧
     (handleSearch q f).difficulty = f.difficulty ∧
     (handleSearch q f).status = f.status ∧
     (handleSearch q f).featured = f.featured ∧
     (handleSearch q f).limit = f.limit) ∧
    ((handleFilterChange k v f).page = 1 ∧
     (handleFilterChange k v f).search = f.search ∧
     (handleFilterChange k v f).featured = f.featured ∧
     (handleFilterChange k v f).limit = f.limit ∧
     (k ≠ .domain → (handleFilterChange k v f).domain = f.domain) ∧
     (k ≠ .category → (handleFilterChange k v f).category = f.category) ∧
     (k ≠ .difficulty →
        (handleFilterChange k v f).difficulty = f.difficulty) ∧
     (k ≠ .status → (handleFilterChange k v f).status = f.status)) ∧
    ((handlePageChange p f).page = p ∧
     (handlePageChange p f).search = f.search ∧
     (handlePageChange p f).domain = f.domain ∧
     (handlePageChange p f).category = f.category ∧
     (handlePageChange p f).difficulty = f.difficulty ∧
     (handlePageChange p f).status = f.status ∧
     (handlePageChange p f).featured = f.featured ∧
     (handlePageChange p f).limit = f.limit) := by
  cases k <;> simp [handleSearch, handleFilterChange, handlePageChange]

theorem filter_change_frame_witness :
    (handleFilterChange .domain (some "Cloud Computing")
        sampleFilters).category = sampleFilters.category ∧
    (handleFilterChange .domain (some "Cloud Computing")
        sampleFilters).page = 1 := by
  have h := filter_change_frame "ml" .domain (some "Cloud Computing") 3
    sampleFilters
  exact ⟨h.2.1.2.2.2.2.2.1 (by decide), h.2.1.1⟩

theorem invalidate_marks_stale (b : String) (c : Cache) :
    ∀ entry ∈ invalidateQueries b c,
      keyBase entry.1 = b → entry.2 = false := by
  intro entry hmem hb
  simp only [invalidateQueries, List.mem_map] at hmem
  obtain ⟨orig, _, heq⟩ := hmem
  by_cases h : keyBase orig.1 = b
  · simp [h] at heq
    rw [← heq]
  · simp [h] at heq
    subst heq
    exact absurd hb h

theorem invalidate_preserves_stale (b b2 : String) (c : Cache)
    (h : ∀ entry ∈ c, keyBase entry.1 = b → entry.2 = false) :
    ∀ entry ∈ invalidateQueries b2 c,
      keyBase entry.1 = b → entry.2 = false := by
  intro entry hmem hb
  simp only [invalidateQueries, List.mem_map] at hmem
  obtain ⟨orig, horig, heq⟩ := hmem
  by_cases h2 : keyBase orig.1 = b2
  · simp [h2] at heq
    rw [← heq]
  · simp [h2] at heq
    subst heq
    exact h _ horig hb

/-- C3: every write mutation on problem statements invalidates the
problems and problem-stats cache families when it succeeds (every
matching cached entry ends up stale), and leaves the cache unchanged
when it fails. -/
theorem mutation_cache_invalidation (op : WriteOp)
    (res : Except ApiError Unit) (c : Cache) :
    (∀ u, res = .ok u →
        settleCache op res c =
          invalidateQueries "problem-stats"
            (invalidateQueries "problems" c) ∧
        ∀ entry ∈ settleCache op res c,
          (keyBase entry.1 = "problems" ∨
           keyBase entry.1 = "problem-stats") → entry.2 = false) ∧
    (∀ e, res = .error e → settleCache op res c = c) := by
  constructor
  · intro u hres
    subst hres
    have hcache : settleCache op (.ok u) c =
        invalidateQueries "problem-stats"
          (invalidateQueries "problems" c) := by
      cases op <;> rfl
    refine ⟨hcache, ?_⟩
    intro entry hmem hb
    rw [hcache] at hmem
    rcases hb with hb | hb
    · exact invalidate_preserves_stale "problems" "problem-stats" _
        (invalidate_marks_stale "problems" c) entry hmem hb
    · exact invalidate_marks_stale "problem-stats" _ entry hmem hb
  · intro e hres
    subst hres
    cases op <;> rfl

theorem mutation_cache_invalidation_witness :
    settleCache .create (.ok ()) sampleCache =
      invalidateQueries "problem-stats"
        (invalidateQueries "problems" sampleCache) ∧
    settleCache .delete (.error sampleEmptyError) sampleCache =
      sampleCache := by
  constructor
  · exact ((mutation_cache_invalidation .create (.ok ()) sampleCache).1
      () rfl).1
  · exact (mutation_cache_invalidation .delete (.error sampleEmptyError)
      sampleCache).2 sampleEmptyError rfl

/-- C4: the client-side schema accepts a submission exactly when the
title length is in [5,200], the abstract length is in [50,5000], the
domain is a member of the program's fixed DOMAINS set, category and
difficulty are members of their enumerated sets, the duration is
non-empty and at most 50 characters, and technologies and deliverables
are each non-empty; a submission with a title of length 4 or 201, or
an abstract of length 49 or 5001, is never handed to the network. -/
theorem createProblem_validation (d : ProblemFormData) :
    (validateProblem d = true ↔
      (5 ≤ d.title.length ∧ d.title.length ≤ 200 ∧
       50 ≤ d.abstract.length ∧ d.abstract.length ≤ 5000 ∧
       d.domain ∈ DOMAINS ∧ d.category ∈ CATEGORIES ∧
       d.difficulty ∈ DIFFICULTIES ∧
       1 ≤ d.duration.length ∧ d.duration.length ≤ 50 ∧
       1 ≤ d.technologies.length ∧ 1 ≤ d.deliverables.length)) ∧
    (d.title.length = 4 ∨ d.title.length = 201 ∨
       d.abstract.length = 49 ∨ d.abstract.length = 5001 →
     clientSubmit d = none) := by
  have hiff : validateProblem d = true ↔
      (5 ≤ d.title.length ∧ d.title.length ≤ 200 ∧
       50 ≤ d.abstract.length ∧ d.abstract.length ≤ 5000 ∧
       d.domain ∈ DOMAINS ∧ d.category ∈ CATEGORIES ∧
       d.difficulty ∈ DIFFICULTIES ∧
       1 ≤ d.duration.length ∧ d.duration.length ≤ 50 ∧
       1 ≤ d.technologies.length ∧ 1 ≤ d.deliverables.length) := by
    simp [validateProblem, Bool.and_eq_true, decide_eq_true_iff, and_assoc]
  refine ⟨hiff, ?_⟩
  intro h
  have hfalse : ¬ validateProblem d = true := by
    intro hv
    obtain ⟨h1, h2, h3, h4, -⟩ := hiff.mp hv
    rcases h with h | h | h | h <;> omega
  simp [clientSubmit, hfalse]

theorem createProblem_validation_witness :
    clientSubmit sampleShortTitleData = none :=
  (createProblem_validation sampleShortTitleData).2 (Or.inl (by decide))

/-- C5 counterexample: the delete mutation's error handler ignores a
server-provided structured message and always reports its generic
fallback, contradicting the claimed precedence for delete. -/
theorem delete_error_ignores_server_message :
    sampleServerError.dataMessage = some "Problem is referenced" ∧
    mutationErrorMessage .delete sampleServerError =
      "Failed to delete problem." ∧
    mutationErrorMessage .delete sampleServerError ≠
      "Problem is referenced" := by
  refine ⟨rfl, rfl, ?_⟩
  decide

/-- C5 amended: the create and update mutations (form submit handler)
report the server structured message when present, else the structured
error list joined into one string, else the error object's own message,
else a generic fallback naming the action; the status and featured
mutations report the server structured message, else the server's
single structured error string, else the error's own message, else a
generic fallback; the delete mutation always reports its generic
fallback regardless of the error; the bulk upload mutation reports the
error's own message, else its generic fallback. -/
theorem mutation_error_message_precedence (e : ApiError) :
    (∀ m, e.dataMessage = some m → m ≠ "" →
        formErrorMessage true e = m ∧ formErrorMessage false e = m) ∧
    (∀ entries, e.dataMessage = none →
        e.dataErrors = some (.arr entries) →
        formErrorMessage true e =
          joinComma (entries.map errEntryText) ∧
        formErrorMessage false e =
          joinComma (entries.map errEntryText)) ∧
    (∀ m, e.dataMessage = none → e.dataErrors = none →
        e.message = some m → m ≠ "" →
        formErrorMessage true e = m ∧ formErrorMessage false e = m) ∧
    (e.dataMessage = none → e.dataErrors = none → e.message = none →
        formErrorMessage true e = "Failed to create problem statement." ∧
        formErrorMessage false e =
          "Failed to update problem statement.") ∧
    (∀ m, e.dataMessage = some m → m ≠ "" →
        statusErrorMessage e = m ∧ featuredErrorMessage e = m) ∧
    (∀ m, e.dataMessage = none → e.dataError = some m → m ≠ "" →
        statusErrorMessage e = m ∧ featuredErrorMessage e = m) ∧
    (∀ m, e.dataMessage = none → e.dataError = none →
        e.message = some m → m ≠ "" →
        statusErrorMessage e = m ∧ featuredErrorMessage e = m) ∧
    (e.dataMessage = none → e.dataError = none → e.message = none →
        statusErrorMessage e = "Failed to update problem status." ∧
        featuredErrorMessage e = "Failed to update featured status.") ∧
    (∀ err : ApiError, mutationErrorMessage .delete err =
        "Failed to delete problem.") ∧
    (∀ m, e.message = some m → m ≠ "" → bulkErrorMessage e = m) ∧
    (e.message = none → bulkErrorMessage e = "Failed to upload file") := by
  refine ⟨?_, ?_, ?_, ?_, ?_, ?_, ?_, ?_, ?_, ?_, ?_⟩
  · intro m hm hne
    constructor <;> simp [formErrorMessage, jsOrStr, hm, hne]
  · intro entries hm herr
    constructor <;> simp [formErrorMessage, jsOrStr, hm, herr]
  · intro m hm herr hmsg hne
    constructor <;> simp [formErrorMessage, jsOrStr, hm, herr, hmsg, hne]
  · intro hm herr hmsg
    constructor <;> simp [formErrorMessage, jsOrStr, hm, herr, hmsg]
  · intro m hm hne
    constructor <;>
      simp [statusErrorMessage, featuredErrorMessage, jsOrStr, hm, hne]
  · intro m hm hde hne
    constructor <;>
      simp [statusErrorMessage, featuredErrorMessage, jsOrStr, hm,
        hde, hne]
  · intro m hm hde hmsg hne
    constructor <;>
      simp [statusErrorMessage, featuredErrorMessage, jsOrStr, hm,
        hde, hmsg, hne]
  · intro hm hde hmsg
    constructor <;>
      simp [statusErrorMessage, featuredErrorMessage, jsOrStr, hm,
        hde, hmsg]
  · intro err
    rfl
  · intro m hmsg hne
    simp [bulkErrorMessage, jsOrStr, hmsg, hne]
  · intro hmsg
    simp [bulkErrorMessage, jsOrStr, hmsg]

theorem mutation_error_message_precedence_witness :
    formErrorMessage true sampleServerError = "Problem is referenced" ∧
    statusErrorMessage sampleServerError = "Problem is referenced" ∧
    statusErrorMessage sampleEmptyError =
      "Failed to update problem status." ∧
    featuredErrorMessage sampleEmptyError =
      "Failed to update featured status." ∧
    mutationErrorMessage .delete sampleServerError =
      "Failed to delete problem." ∧
    bulkErrorMessage sampleServerError = "Failed to upload file" ∧
    bulkErrorMessage sampleEmptyError = "Failed to upload file" := by
  have h1 := mutation_error_message_precedence sampleServerError
  have h2 := mutation_error_message_precedence sampleEmptyError
  obtain ⟨hform, -, -, -, hstat, -, -, -, hdel, -, hbulk1⟩ := h1
  obtain ⟨-, -, -, -, -, -, -, hfall, -, -, hbulk2⟩ := h2
  have hfallout := hfall rfl rfl rfl
  exact ⟨(hform "Problem is referenced" rfl (by decide)).1,
    (hstat "Problem is referenced" rfl (by decide)).1,
    hfallout.1, hfallout.2,
    hdel sampleServerError,
    hbulk1 rfl, hbulk2 rfl⟩

/-- C6: a resolved bulk-upload response carrying both a positive
imported count and a positive failed count is handled by the success
path: processing finishes at progress 100, the whole result is stored,
the rendered panel surfaces both counts and every row-level error
entry of the response. -/
theorem bulk_partial_success_surfaced (result : UploadResult)
    (d : UploadData) (s : BulkState) (c : Cache)
    (hd : result.data = some d)
    (_himp : 0 < d.imported) (_hfail : 0 < d.failed) :
    (bulkSettle (.ok result) s c).1.uploadResult = some result ∧
    (bulkSettle (.ok result) s c).1.isProcessing = false ∧
    (bulkSettle (.ok result) s c).1.uploadProgress = 100 ∧
    renderedCounts (bulkSettle (.ok result) s c).1 =
      some (d.imported, d.failed) ∧
    renderedRowErrors (bulkSettle (.ok result) s c).1 = d.errors := by
  refine ⟨rfl, rfl, rfl, ?_, ?_⟩
  · simp [bulkSettle, renderedCounts, hd]
  · simp only [bulkSettle, renderedRowErrors, hd]
    cases d.errors <;> simp

theorem bulk_partial_success_surfaced_witness :
    (bulkSettle (.ok sampleBulkResult) sampleBulkState
        sampleCache).1.uploadResult = some sampleBulkResult ∧
    renderedCounts (bulkSettle (.ok sampleBulkResult) sampleBulkState
        sampleCache).1 = some (22, 3) ∧
    renderedRowErrors (bulkSettle (.ok sampleBulkResult) sampleBulkState
        sampleCache).1 =
      [{ row := 2, field := "title", message := "Title too short" },
       { row := 5, field := "domain", message := "Invalid domain" },
       { row := 9, field := "abstract", message := "Abstract too short" }] := by
  have h := bulk_partial_success_surfaced sampleBulkResult
    { imported := 22, failed := 3,
      errors :=
        [{ row := 2, field := "title", message := "Title too short" },
         { row := 5, field := "domain", message := "Invalid domain" },
         { row := 9, field := "abstract",
           message := "Abstract too short" }] }
    sampleBulkState sampleCache rfl (by decide) (by decide)
  exact ⟨h.1, h.2.2.2.1, h.2.2.2.2⟩

/-- C7: a file whose declared MIME type is not text/csv and whose name
does not end in .csv is rejected by the file-selection handler with the
invalid-file toast, the component state is unchanged, and the rejected
file is never the one handed to the upload mutation. -/
theorem bulk_nonCsv_rejected (f : UploadFile) (s : BulkState)
    (hmime : f.type ≠ "text/csv")
    (hname : jsEndsWith f.name ".csv" = false) :
    handleFileSelect f s = (s, some invalidFileToast) ∧
    handleUpload (handleFileSelect f s).1 = handleUpload s ∧
    (s.selectedFile ≠ some f →
      handleUpload (handleFileSelect f s).1 ≠ some f) := by
  have hsel : handleFileSelect f s = (s, some invalidFileToast) := by
    simp [handleFileSelect, hname, hmime]
  refine ⟨hsel, by rw [hsel], ?_⟩
  intro hne
  rw [hsel]
  exact hne

theorem bulk_nonCsv_rejected_witness :
    handleFileSelect sampleNonCsvFile sampleBulkState =
      (sampleBulkState, some invalidFileToast) ∧
    handleUpload (handleFileSelect sampleNonCsvFile sampleBulkState).1 ≠
      some sampleNonCsvFile := by
  have h := bulk_nonCsv_rejected sampleNonCsvFile sampleBulkState
    (by decide) (by decide)
  exact ⟨h.1, h.2.2 (by decide)⟩

end ConceptCraft
